import Mathlib

/-!
Verification development for the `pw` credential-manager CLI (`src/main.rs`).

The program keeps a local index (`KeyStorage`, persisted as `keys.json`) of
registered `(key, optional tag)` pairs, while the secrets themselves live in
an external platform credential store addressed by a flat string identifier
derived from the pair.  We embed the four command flows
(`handle_set_command`, `handle_password`, `handle_list_command`,
`handle_remove_command`) as pure Lean functions:

* the persisted index read by `KeyStorage::load` enters as an
  `Except IoError KeyStorage` argument (the load result);
* the external credential store and the clipboard enter as oracle
  arguments (`String → Except StoreError _`, `Except ClipError Unit`);
* the result of `KeyStorage::save` enters as an `Except IoError Unit`
  argument, and each flow additionally reports the argument it passed to
  `save` (if it called it at all) and the list of identifiers on which it
  invoked the external store, so that "the index was not persisted" and
  "the store was never contacted" are directly statable;
* the `HashSet<(String, Option<String>)>` is modelled as the list of its
  elements in iteration order (the set never holds duplicates; iteration
  order is arbitrary but fixed within one invocation, and every flow
  performs a single iteration pass).
-/

namespace Pw

/-- An index entry: a key together with an optional tag
(Rust: `(String, Option<String>)`). -/
abbrev Entry := String × Option String

/-- Rust struct `KeyStorage { keys: HashSet<(String, Option<String>)> }`,
with the hash set modelled as its iteration-order list of elements. -/
structure KeyStorage where
  keys : List Entry
deriving DecidableEq

/-- Error from reading or writing the persisted index file
(`std::io::Error`, carrying its message). -/
abbrev IoError := String

/-- Error from the external credential store (`keyring::Error`, which
includes the not-found case, carrying its message). -/
abbrev StoreError := String

/-- Error from the clipboard (`arboard` errors, carrying the message). -/
abbrev ClipError := String

/-- `storage.keys.insert((key, tag))` on the `HashSet`: returns the updated
set and whether the element was newly inserted (`true` iff it was absent). -/
def KeyStorage.insert (s : KeyStorage) (e : Entry) : KeyStorage × Bool :=
  if e ∈ s.keys then (s, false) else (⟨s.keys ++ [e]⟩, true)

/-- `storage.keys.remove(&storage_key)` on the `HashSet`: returns the updated
set and whether the element was present and removed. -/
def KeyStorage.remove (s : KeyStorage) (e : Entry) : KeyStorage × Bool :=
  if e ∈ s.keys then (⟨s.keys.erase e⟩, true) else (s, false)

/-- The storage identifier derived from a key and an optional tag
(`main.rs` lines 76-79): `"{key}:{tag}"` when a tag is present, the bare
key otherwise. -/
def entryNameOf (key : String) (tag : Option String) : String :=
  match tag with
  | some tag => key ++ ":" ++ tag
  | none => key

/-- The `matched_keys` computation shared verbatim by `handle_password`
(lines 92-103) and `handle_remove_command` (lines 168-179): every index
entry whose key equals the queried key, paired with the identifier the flow
will address — `"{key}:{tag}"` from the supplied tag when there is one,
otherwise `"{key}:{tag_str}"` from the entry tag, otherwise the bare key. -/
def matchedKeys (keys : List Entry) (key : String) (tag : Option String) :
    List (Entry × String) :=
  keys.filterMap (fun e =>
    if e.1 == key then
      some (e,
        match tag with
        | some tg => key ++ ":" ++ tg
        | none =>
          match e.2 with
          | some tagStr => key ++ ":" ++ tagStr
          | none => e.1)
    else none)

/-- Outcome of one run of `handle_password` (the get flow). -/
inductive GetOutcome
  /-- `KeyStorage::load()?` failed: the error propagates to the caller. -/
  | ioError : GetOutcome
  /-- Multiple matches and no tag supplied: the candidates` identifiers are
  printed (each as `* {id}`, joined by newlines, with instructions to pass
  a tag) and the flow returns `Ok(())`. -/
  | ambiguous : List String → GetOutcome
  /-- The `panic!` on line 114, with its message. -/
  | panicked : String → GetOutcome
  /-- `Entry::new_with_target` or `get_password` failed: error propagates. -/
  | storeError : GetOutcome
  /-- Clipboard initialization or `set_text` failed after the secret was
  already retrieved: error propagates. -/
  | clipError : GetOutcome
  /-- The password was read from the store under the given identifier. -/
  | success : String → String → GetOutcome
deriving DecidableEq

/-- Result of a get-flow run: the outcome plus the identifiers on which the
external store was invoked. -/
structure GetResult where
  outcome : GetOutcome
  storeCalls : List String
deriving DecidableEq

/-- `Cli::handle_password` (lines 91-131).  `loadResult` is what
`KeyStorage::load()` returned, `g` is the external store read
(`entry.get_password()` composed with `Cli::entry`), `clip` the clipboard
interaction attempted when `copy` is set. -/
def handle_password (loadResult : Except IoError KeyStorage) (key : String)
    (quiet copy : Bool) (tag : Option String)
    (g : String → Except StoreError String) (clip : Except ClipError Unit) :
    GetResult :=
  match loadResult with
  | .error _ => ⟨.ioError, []⟩
  | .ok storage =>
    let matched := matchedKeys storage.keys key tag
    if 1 < matched.length ∧ tag = none then
      ⟨.ambiguous (matched.map Prod.snd), []⟩
    else
      match matched.head? with
      | none =>
        ⟨.panicked ("Key \"" ++ key ++ "\" was found initially, but returned None."), []⟩
      | some (_, entry_name) =>
        match g entry_name with
        | .error _ => ⟨.storeError, [entry_name]⟩
        | .ok pw =>
          if copy then
            match clip with
            | .error _ => ⟨.clipError, [entry_name]⟩
            | .ok _ => ⟨.success entry_name pw, [entry_name]⟩
          else ⟨.success entry_name pw, [entry_name]⟩

/-- Outcome of one run of `handle_set_command`. -/
inductive SetOutcome
  /-- `KeyStorage::load()?` failed. -/
  | ioError : SetOutcome
  /-- `Cli::entry` or `set_password` failed: error propagates, nothing
  inserted, nothing saved. -/
  | storeError : SetOutcome
  /-- `storage.save()?` failed after a successful store write. -/
  | saveError : SetOutcome
  /-- The password was stored under the given identifier. -/
  | ok : String → SetOutcome
deriving DecidableEq

/-- Result of a set-flow run: outcome, store calls, and the index passed to
`save()` (`none` when `save` was never invoked). -/
structure SetResult where
  outcome : SetOutcome
  storeCalls : List String
  saved : Option KeyStorage
deriving DecidableEq

/-- `Cli::handle_set_command` (lines 74-89).  `g` is the external store
write (`Cli::entry` composed with `set_password`), `saveResult` the result
`storage.save()` would return. -/
def handle_set_command (loadResult : Except IoError KeyStorage)
    (key password : String) (quiet : Bool) (tag : Option String)
    (g : String → Except StoreError Unit) (saveResult : Except IoError Unit) :
    SetResult :=
  match loadResult with
  | .error _ => ⟨.ioError, [], none⟩
  | .ok storage =>
    let entry_name := entryNameOf key tag
    match g entry_name with
    | .error _ => ⟨.storeError, [entry_name], none⟩
    | .ok _ =>
      let ins := storage.insert (key, tag)
      if ins.2 then
        match saveResult with
        | .error _ => ⟨.saveError, [entry_name], some ins.1⟩
        | .ok _ => ⟨.ok entry_name, [entry_name], some ins.1⟩
      else ⟨.ok entry_name, [entry_name], none⟩

/-- Outcome of one run of `handle_remove_command`. -/
inductive RemoveOutcome
  /-- `KeyStorage::load()?` failed. -/
  | ioError : RemoveOutcome
  /-- Multiple matches and no tag supplied: candidate identifiers printed,
  flow returns `Ok(())` without touching store or index. -/
  | ambiguous : List String → RemoveOutcome
  /-- The `panic!` on line 192, with its message. -/
  | panicked : String → RemoveOutcome
  /-- `Cli::entry` or `delete_credential` failed: error propagates and
  `storage.save()` is never reached. -/
  | storeError : RemoveOutcome
  /-- `storage.save()?` failed after the credential was deleted. -/
  | saveError : RemoveOutcome
  /-- The credential under the given identifier was deleted and the index
  saved. -/
  | removed : String → RemoveOutcome
  /-- No index entry matched the key: prints `"{key}" not found.` and
  returns `Ok(())` without contacting the store. -/
  | notFound : String → RemoveOutcome
deriving DecidableEq

/-- Whether a remove outcome is the panic branch. -/
def RemoveOutcome.isPanic : RemoveOutcome → Bool
  | .panicked _ => true
  | _ => false

/-- Result of a remove-flow run: outcome, store calls, and the index passed
to `save()` (`none` when `save` was never invoked). -/
structure RemoveResult where
  outcome : RemoveOutcome
  storeCalls : List String
  saved : Option KeyStorage
deriving DecidableEq

/-- `Cli::handle_remove_command` (lines 166-205).  `d` is the external
store delete (`Cli::entry` composed with `delete_credential`). -/
def handle_remove_command (loadResult : Except IoError KeyStorage)
    (key : String) (quiet : Bool) (tag : Option String)
    (d : String → Except StoreError Unit) (saveResult : Except IoError Unit) :
    RemoveResult :=
  match loadResult with
  | .error _ => ⟨.ioError, [], none⟩
  | .ok storage =>
    let matched := matchedKeys storage.keys key tag
    if 1 < matched.length ∧ tag = none then
      ⟨.ambiguous (matched.map Prod.snd), [], none⟩
    else
      match matched.head? with
      | some (storage_key, key_str) =>
        let rem := storage.remove storage_key
        if rem.2 then
          match d key_str with
          | .error _ => ⟨.storeError, [key_str], none⟩
          | .ok _ =>
            match saveResult with
            | .error _ => ⟨.saveError, [key_str], some rem.1⟩
            | .ok _ => ⟨.removed key_str, [key_str], some rem.1⟩
        else ⟨.panicked "Key found in storage previously failed on removal.", [], none⟩
      | none => ⟨.notFound key, [], none⟩

/-- Outcome of one run of `handle_list_command`.  The Rust function returns
`anyhow::Result<()>`, so an error outcome is representable, but the body
never produces one: load failures are swallowed by `unwrap_or_default()`. -/
inductive ListOutcome
  /-- An error propagated to the caller (never produced by the code). -/
  | ioError : ListOutcome
  /-- Normal return; the payload is the single printed string, `none` when
  nothing was printed (quiet mode, or empty storage). -/
  | done : Option String → ListOutcome
deriving DecidableEq

/-- One rendered listing line (lines 151-157): `* key:tag` or `* key`. -/
def renderEntry : Entry → String
  | (key, some tag) => "* " ++ key ++ ":" ++ tag
  | (key, none) => "* " ++ key

/-- The `filtered_keys` match (lines 138-148): filter by exact tag, by
absence of tag, or keep everything. -/
def filteredKeys (keys : List Entry) (tag : Option String) (noTag : Bool) :
    List Entry :=
  match tag, noTag with
  | some _, false => keys.filterMap (fun e => if e.2 == tag then some e else none)
  | _, true => keys.filterMap (fun e => if e.2.isNone then some e else none)
  | none, false => keys

/-- `Cli::handle_list_command` (lines 133-164).  In quiet mode nothing
happens at all; otherwise the index is loaded with
`KeyStorage::load().unwrap_or_default()` — a load failure yields the empty
index rather than an error — and the non-empty case prints the filtered,
rendered entries joined by newlines. -/
def handle_list_command (loadResult : Except IoError KeyStorage)
    (quiet : Bool) (tag : Option String) (noTag : Bool) : ListOutcome :=
  if quiet then .done none
  else
    let storage := match loadResult with
      | .error _ => KeyStorage.mk []
      | .ok s => s
    if storage.keys.isEmpty then .done none
    else
      .done (some (String.intercalate "\n"
        ((filteredKeys storage.keys tag noTag).map renderEntry)))

end Pw

namespace Pw

/-- Unfolding `matchedKeys` over the head of the index list. -/
theorem matchedKeys_cons (a : Entry) (l : List Entry) (k : String)
    (tag : Option String) :
    matchedKeys (a :: l) k tag
      = if a.1 == k then
          (a, match tag with
              | some tg => k ++ ":" ++ tg
              | none =>
                match a.2 with
                | some tagStr => k ++ ":" ++ tagStr
                | none => a.1) :: matchedKeys l k tag
        else matchedKeys l k tag := by
  simp only [matchedKeys, List.filterMap_cons]
  cases h : (a.1 == k) <;> simp [h]

/-- The `matched_keys` pass is the key-filtered index, each entry paired
with the identifier the flow will address: the supplied tag wins, otherwise
the entry determines its own derived identifier. -/
theorem matchedKeys_eq (keys : List Entry) (k : String) (tag : Option String) :
    matchedKeys keys k tag
      = (keys.filter (fun e => e.1 == k)).map (fun e =>
          (e, match tag with
              | some tg => k ++ ":" ++ tg
              | none => entryNameOf e.1 e.2)) := by
  induction keys with
  | nil => rfl
  | cons a l ih =>
    obtain ⟨ka, ta⟩ := a
    rw [matchedKeys_cons, List.filter_cons]
    cases h : ((ka, ta).1 == k) with
    | false => simpa [h] using ih
    | true =>
      have hk : ka = k := eq_of_beq (by simpa using h)
      subst hk
      cases tag with
      | some tg => simp [h, ih]
      | none =>
        cases ta with
        | none => simp [h, ih, entryNameOf]
        | some ts => simp [h, ih, entryNameOf]

/-- The head of the `matched_keys` list, when present, is an entry of the
index itself whose key is the queried key. -/
theorem head_mem_of_matchedKeys (keys : List Entry) (k : String)
    (tag : Option String) (e : Entry) (s : String)
    (h : (matchedKeys keys k tag).head? = some (e, s)) : e ∈ keys ∧ e.1 = k := by
  rw [matchedKeys_eq] at h
  cases hf : keys.filter (fun e => e.1 == k) with
  | nil => rw [hf] at h; cases h
  | cons a l2 =>
    rw [hf] at h
    simp only [List.map_cons, List.head?_cons, Option.some.injEq, Prod.mk.injEq] at h
    have ha : a ∈ keys.filter (fun e => e.1 == k) := by
      rw [hf]; exact List.mem_cons_self a l2
    have hmem := List.mem_filter.mp ha
    have hae : a = e := h.1
    subst hae
    exact ⟨hmem.1, eq_of_beq hmem.2⟩

/-- `filterMap` with a boolean guard that keeps the element is `filter`. -/
theorem filterMap_guard_eq_filter {α : Type} (p : α → Bool) (l : List α) :
    l.filterMap (fun a => if p a then some a else none) = l.filter p := by
  induction l with
  | nil => rfl
  | cons a l ih =>
    cases h : p a <;> simp [List.filterMap_cons, List.filter_cons, h, ih]

end Pw

namespace Pw

/-- Claim C7: for every key and optional tag, the storage identifier derived
from the entry is the key, a colon and the tag when the tag is present, and
the bare key otherwise; the derivation is a total pure function. -/
theorem c7_derive_identifier (k t : String) :
    entryNameOf k (some t) = k ++ ":" ++ t ∧ entryNameOf k none = k :=
  ⟨rfl, rfl⟩

/-- Claim C8: registering an already-present entry is idempotent — the
`HashSet` insert leaves the index unchanged and reports no change, so the
set flow (after a successful store write) never calls `save`. -/
theorem c8_register_idempotent (st : KeyStorage) (k : String)
    (t : Option String) (password : String) (quiet : Bool)
    (g : String → Except StoreError Unit) (sv : Except IoError Unit)
    (hmem : (k, t) ∈ st.keys) (hg : g (entryNameOf k t) = .ok ()) :
    KeyStorage.insert st (k, t) = (st, false) ∧
    handle_set_command (.ok st) k password quiet t g sv
      = ⟨.ok (entryNameOf k t), [entryNameOf k t], none⟩ := by
  have hins : KeyStorage.insert st (k, t) = (st, false) := by
    simp [KeyStorage.insert, hmem]
  refine ⟨hins, ?_⟩
  simp [handle_set_command, hg, hins]

/-- Witness for C8 at the index already holding `("db", no tag)`. -/
theorem c8_register_idempotent_witness :
    KeyStorage.insert ⟨[("db", none)]⟩ ("db", none) = (⟨[("db", none)]⟩, false) ∧
    handle_set_command (.ok ⟨[("db", none)]⟩) "db" "secret1" false none
        (fun _ => .ok ()) (.ok ())
      = ⟨.ok "db", ["db"], none⟩ := by
  have h := c8_register_idempotent ⟨[("db", none)]⟩ "db" none "secret1" false
      (fun _ => .ok ()) (.ok ()) (by decide) rfl
  exact ⟨h.1, h.2.trans (by decide)⟩

/-- Claim C4: when no index entry has the queried key, the remove flow is a
successful no-op — it reports "not found", never contacts the external
store, and never calls `save`. -/
theorem c4_remove_not_found (keys : List Entry) (k : String) (quiet : Bool)
    (tag : Option String) (d : String → Except StoreError Unit)
    (sv : Except IoError Unit)
    (h : keys.filter (fun e => e.1 == k) = []) :
    handle_remove_command (.ok ⟨keys⟩) k quiet tag d sv
      = ⟨.notFound k, [], none⟩ := by
  have hm : matchedKeys keys k tag = [] := by
    rw [matchedKeys_eq, h]; rfl
  simp [handle_remove_command, hm]

/-- Witness for C4 at an index holding only an unrelated key. -/
theorem c4_remove_not_found_witness :
    handle_remove_command (.ok ⟨[("other", none)]⟩) "k" false none
        (fun _ => .ok ()) (.ok ())
      = ⟨.notFound "k", [], none⟩ :=
  c4_remove_not_found [("other", none)] "k" false none
    (fun _ => .ok ()) (.ok ()) (by decide)

/-- Claim C2: when more than one index entry has the queried key and no tag
is supplied, both the get and the remove flow terminate in the ambiguous
informational outcome listing the derived identifier of every candidate,
with no external-store call and (for remove) no `save` call. -/
theorem c2_ambiguous_query (keys : List Entry) (k : String)
    (quiet copy : Bool) (g : String → Except StoreError String)
    (clip : Except ClipError Unit) (d : String → Except StoreError Unit)
    (sv : Except IoError Unit)
    (h : 1 < (keys.filter (fun e => e.1 == k)).length) :
    handle_password (.ok ⟨keys⟩) k quiet copy none g clip
      = ⟨.ambiguous ((keys.filter (fun e => e.1 == k)).map
          (fun e => entryNameOf e.1 e.2)), []⟩ ∧
    handle_remove_command (.ok ⟨keys⟩) k quiet none d sv
      = ⟨.ambiguous ((keys.filter (fun e => e.1 == k)).map
          (fun e => entryNameOf e.1 e.2)), [], none⟩ := by
  have hm : matchedKeys keys k none = (keys.filter (fun e => e.1 == k)).map
      (fun e => (e, entryNameOf e.1 e.2)) := by
    simpa using matchedKeys_eq keys k none
  constructor
  · simp [handle_password, hm, h, List.map_map, Function.comp]
  · simp [handle_remove_command, hm, h, List.map_map, Function.comp]

/-- Witness for C2 at the index `{(k, no tag), (k, tag a)}` of section 8 of
the spec. -/
theorem c2_ambiguous_query_witness :
    handle_password (.ok ⟨[("k", none), ("k", some "a")]⟩) "k" false false
        none (fun _ => .ok "pw") (.ok ())
      = ⟨.ambiguous ["k", "k:a"], []⟩ ∧
    handle_remove_command (.ok ⟨[("k", none), ("k", some "a")]⟩) "k" false
        none (fun _ => .ok ()) (.ok ())
      = ⟨.ambiguous ["k", "k:a"], [], none⟩ := by
  have h := c2_ambiguous_query [("k", none), ("k", some "a")] "k" false false
      (fun _ => .ok "pw") (.ok ()) (fun _ => .ok ()) (.ok ()) (by decide)
  exact ⟨h.1.trans (by decide), h.2.trans (by decide)⟩

end Pw

namespace Pw

/-- Counterexample to claim C1 as stated: with tag `a` supplied and an
index holding no entry for key `k`, the remove flow reports "not found"
without ever contacting the external store (its call list is empty), even
though the store delete would succeed — and the get flow hits a panic
branch — so resolution does depend on the index contents. -/
theorem c1_counterexample :
    handle_remove_command (.ok ⟨[]⟩) "k" false (some "a")
        (fun _ => .ok ()) (.ok ())
      = ⟨.notFound "k", [], none⟩ ∧
    handle_password (.ok ⟨[]⟩) "k" false false (some "a")
        (fun _ => .ok "secret") (.ok ())
      = ⟨.panicked "Key \"k\" was found initially, but returned None.", []⟩ :=
  ⟨rfl, rfl⟩

/-- Claim C1 (amended): when a tag `t` is supplied and at least one index
entry has the queried key `k`, both the get and the remove flow address the
external store exactly once, at the identifier derived from `(k, t)` — with
no ambiguity check and whether or not the entry `(k, t)` itself is in the
index — and the get outcome then tracks the success or failure of that
store call. -/
theorem c1_tagged_resolution (keys : List Entry) (k t : String)
    (quiet copy : Bool) (g : String → Except StoreError String)
    (clip : Except ClipError Unit) (d : String → Except StoreError Unit)
    (sv : Except IoError Unit)
    (h : keys.filter (fun e => e.1 == k) ≠ []) :
    (handle_password (.ok ⟨keys⟩) k quiet copy (some t) g clip).storeCalls
        = [entryNameOf k (some t)] ∧
    (handle_remove_command (.ok ⟨keys⟩) k quiet (some t) d sv).storeCalls
        = [entryNameOf k (some t)] ∧
    (∀ er, g (entryNameOf k (some t)) = .error er →
      (handle_password (.ok ⟨keys⟩) k quiet copy (some t) g clip).outcome
        = .storeError) ∧
    (∀ pw, g (entryNameOf k (some t)) = .ok pw → copy = false →
      (handle_password (.ok ⟨keys⟩) k quiet copy (some t) g clip).outcome
        = .success (entryNameOf k (some t)) pw) := by
  obtain ⟨a, l2, hf⟩ := List.exists_cons_of_ne_nil h
  have hm : matchedKeys keys k (some t)
      = (a, k ++ ":" ++ t) :: l2.map (fun e => (e, k ++ ":" ++ t)) := by
    rw [matchedKeys_eq, hf]; rfl
  have hmem : a ∈ keys := by
    have ha : a ∈ keys.filter (fun e => e.1 == k) := by
      rw [hf]; exact List.mem_cons_self a l2
    exact (List.mem_filter.mp ha).1
  have hrem : (KeyStorage.mk keys).remove a = (⟨keys.erase a⟩, true) := by
    simp [KeyStorage.remove, hmem]
  have hname : entryNameOf k (some t) = k ++ ":" ++ t := rfl
  rw [hname]
  refine ⟨?_, ?_, ?_, ?_⟩
  · simp only [handle_password, hm]
    cases hg : g (k ++ ":" ++ t) with
    | error e => simp [hg]
    | ok pw => cases copy <;> cases clip <;> simp [hg]
  · simp only [handle_remove_command, hm]
    cases hd : d (k ++ ":" ++ t) with
    | error e => simp [hd, hrem]
    | ok u => cases sv <;> simp [hd, hrem]
  · intro er hg
    simp [handle_password, hm, hg]
  · intro pw hg hcopy
    simp [handle_password, hm, hg, hcopy]

/-- Witness for C1 (amended): the index holds only `(k, no tag)`, yet the
query for `(k, tag a)` is addressed to the store as `k:a`. -/
theorem c1_tagged_resolution_witness :
    (handle_password (.ok ⟨[("k", none)]⟩) "k" false false (some "a")
        (fun _ => .ok "secret") (.ok ())).storeCalls = ["k:a"] ∧
    (handle_remove_command (.ok ⟨[("k", none)]⟩) "k" false (some "a")
        (fun _ => .ok ()) (.ok ())).storeCalls = ["k:a"] := by
  have h := c1_tagged_resolution [("k", none)] "k" "a" false false
      (fun _ => .ok "secret") (.ok ()) (fun _ => .ok ()) (.ok ()) (by decide)
  exact ⟨h.1.trans (by decide), h.2.1.trans (by decide)⟩

/-- Claim C3 (the code side): on an index with no entry for the queried
key, the get flow does not surface an external-store error — it panics,
with a message asserting the key had been found, before any store call
(the store-call list is empty). -/
theorem c3_get_missing_key_panics :
    handle_password (.ok ⟨[]⟩) "k" false false none
        (fun _ => .ok "secret") (.ok ())
      = ⟨.panicked "Key \"k\" was found initially, but returned None.", []⟩ :=
  rfl

/-- Counterexample to claim C5 as stated: the list flow swallows a failed
index load (`unwrap_or_default`) and terminates normally with nothing
printed instead of propagating a storage I/O error. -/
theorem c5_counterexample :
    handle_list_command (.error "invalid json") false none false
      = .done none :=
  rfl

/-- Claim C5 (amended): a failed or invalid index load is propagated as a
fatal per-invocation error by the set, get and remove flows; the list flow
instead treats the unreadable index as empty and terminates normally. -/
theorem c5_load_failure_propagation (er : IoError) (key password : String)
    (quiet copy quiet2 noTag : Bool) (tag : Option String)
    (gs : String → Except StoreError Unit)
    (gg : String → Except StoreError String) (clip : Except ClipError Unit)
    (d : String → Except StoreError Unit) (sv sv2 : Except IoError Unit) :
    handle_set_command (.error er) key password quiet tag gs sv
      = ⟨.ioError, [], none⟩ ∧
    handle_password (.error er) key quiet copy tag gg clip = ⟨.ioError, []⟩ ∧
    handle_remove_command (.error er) key quiet tag d sv2
      = ⟨.ioError, [], none⟩ ∧
    handle_list_command (.error er) quiet2 tag noTag = .done none := by
  refine ⟨rfl, rfl, rfl, ?_⟩
  cases quiet2 <;> rfl

/-- Claim C6: when every external-store write fails, the set flow ends in
the store-error outcome without inserting or persisting anything; and when
every external-store delete fails, the remove flow never calls `save`, so
the targeted entry stays in the persisted index. -/
theorem c6_store_failure_rollback (st st2 : KeyStorage)
    (key password key2 : String) (quiet quiet2 : Bool)
    (tag tag2 : Option String) (er : StoreError)
    (g : String → Except StoreError Unit) (d : String → Except StoreError Unit)
    (sv sv2 : Except IoError Unit)
    (hg : ∀ s, g s = .error er) (hd : ∀ s, d s = .error er) :
    handle_set_command (.ok st) key password quiet tag g sv
      = ⟨.storeError, [entryNameOf key tag], none⟩ ∧
    (handle_remove_command (.ok st2) key2 quiet2 tag2 d sv2).saved = none := by
  constructor
  · simp [handle_set_command, hg]
  · simp only [handle_remove_command]
    split
    · rfl
    · cases hh : (matchedKeys st2.keys key2 tag2).head? with
      | none => simp [hh]
      | some p =>
        obtain ⟨e, s⟩ := p
        by_cases hr : (st2.remove e).2 = true
        · simp [hh, hr, hd]
        · simp [hh, hr]

/-- Witness for C6 with a store that always fails. -/
theorem c6_store_failure_rollback_witness :
    handle_set_command (.ok ⟨[]⟩) "k" "pw" false none
        (fun _ => .error "boom") (.ok ())
      = ⟨.storeError, ["k"], none⟩ ∧
    (handle_remove_command (.ok ⟨[("a", none)]⟩) "a" false none
        (fun _ => .error "boom") (.ok ())).saved = none := by
  have h := c6_store_failure_rollback ⟨[]⟩ ⟨[("a", none)]⟩ "k" "pw" "a"
      false false none none "boom" (fun _ => .error "boom")
      (fun _ => .error "boom") (.ok ()) (.ok ()) (fun _ => rfl) (fun _ => rfl)
  exact ⟨h.1.trans (by decide), h.2⟩

end Pw

namespace Pw

/-- Claim C9: listing with the no-tag-only filter returns exactly the
entries whose tag is absent; in particular, on the index
`{(k1, no tag), (k2, tag x)}` only the `k1` line is printed. -/
theorem c9_list_no_tag_filter :
    (∀ (keys : List Entry) (tag : Option String), keys ≠ [] →
      handle_list_command (.ok ⟨keys⟩) false tag true
        = .done (some (String.intercalate "\n"
            ((keys.filter (fun e => e.2.isNone)).map renderEntry)))) ∧
    handle_list_command (.ok ⟨[("k1", none), ("k2", some "x")]⟩) false none
        true
      = .done (some "* k1") := by
  have hfk : ∀ (keys : List Entry) (tag : Option String),
      filteredKeys keys tag true = keys.filter (fun e => e.2.isNone) := by
    intro keys tag
    cases tag with
    | none => exact filterMap_guard_eq_filter _ keys
    | some x => exact filterMap_guard_eq_filter _ keys
  constructor
  · intro keys tag hne
    cases keys with
    | nil => exact absurd rfl hne
    | cons a l => simp [handle_list_command, hfk]
  · rfl

/-- Witness for C9 on a two-entry index with an unused specific-tag value
alongside the no-tag flag position. -/
theorem c9_list_no_tag_filter_witness :
    handle_list_command (.ok ⟨[("a", some "t"), ("b", none)]⟩) false none true
      = .done (some "* b") := by
  have h := c9_list_no_tag_filter.1 [("a", some "t"), ("b", none)] none
      (by decide)
  exact h.trans (by decide)

/-- Claim C10: the remove flow's panic branch is unreachable — whatever the
load result, index contents, query and oracles, the outcome is never the
panic, because the head of `matched_keys` is itself an element of the very
set it is removed from. -/
theorem c10_remove_panic_unreachable (loadResult : Except IoError KeyStorage)
    (k : String) (quiet : Bool) (tag : Option String)
    (d : String → Except StoreError Unit) (sv : Except IoError Unit) :
    ((handle_remove_command loadResult k quiet tag d sv).outcome).isPanic
      = false := by
  cases loadResult with
  | error e => rfl
  | ok storage =>
    simp only [handle_remove_command]
    split
    · rfl
    · cases hh : (matchedKeys storage.keys k tag).head? with
      | none => simp [hh, RemoveOutcome.isPanic]
      | some p =>
        obtain ⟨e, s⟩ := p
        have hmem : e ∈ storage.keys :=
          (head_mem_of_matchedKeys storage.keys k tag e s hh).1
        have hr : (storage.remove e).2 = true := by
          simp [KeyStorage.remove, hmem]
        cases hd : d s with
        | error e2 => simp [hh, hr, hd, RemoveOutcome.isPanic]
        | ok u => cases sv <;> simp [hh, hr, hd, RemoveOutcome.isPanic]

end Pw
